import Mathlib

/-
  Verification development for the SQL-generation / execution core of the
  bob_the_db_chatbot repository (Python backend).

  Shallow embedding conventions:
  * Python strings are Lean `String`s; `str.join`, slicing and membership are
    modelled by explicit recursive functions below.
  * A language-model response that has already been run through `json.loads`
    is modelled as `Option Json` (`none` = the text was not valid JSON); the
    `Json` inductive mirrors the values `json.loads` can produce.  Object
    key lists are the dictionaries produced by `json.loads`, so keys are
    unique and `lookup` finds the unique binding.
  * Python exceptions are modelled as explicit result constructors:
    `json.JSONDecodeError` raised by the validator is a `jsonError` outcome,
    a `TypeError` escaping the validator is a `typeError` outcome.
  * Machine integers do not occur: all Python ints are `Int`.
-/

namespace BobDB

/-! ## String search helpers (Python `in` on strings, `str.join`) -/

/-- Does the character list `t` start with the pattern `p`? -/
def startsL : List Char → List Char → Bool
  | [], _ => true
  | _ :: _, [] => false
  | a :: as, b :: bs => a == b && startsL as bs

/-- Does the character list `t` contain the pattern `p` as a contiguous run?
(Python `p in t` for strings.) -/
def hasSubL (p : List Char) : List Char → Bool
  | [] => p.isEmpty
  | c :: cs => startsL p (c :: cs) || hasSubL p cs

/-- Python substring membership `pat in s`. -/
def hasSub (s pat : String) : Bool :=
  hasSubL pat.data s.data

/-- Python `sep.join(parts)`. -/
def pyJoin (sep : String) : List String → String
  | [] => ""
  | [x] => x
  | x :: y :: xs => x ++ sep ++ pyJoin sep (y :: xs)

/-- Python `s.startswith(pat)`. -/
def pyStartsWith (s pat : String) : Bool :=
  startsL pat.data s.data

/-- Python `s.upper()` (ASCII case mapping). -/
def pyUpper (s : String) : String :=
  String.mk (s.data.map Char.toUpper)

/-- Python `s.lower()` (ASCII case mapping). -/
def pyLower (s : String) : String :=
  String.mk (s.data.map Char.toLower)

/-- Python `s.strip()`: remove leading and trailing whitespace. -/
def pyStrip (s : String) : String :=
  String.mk (((s.data.dropWhile Char.isWhitespace).reverse.dropWhile Char.isWhitespace).reverse)

/-- Accumulating splitter for `str.split()` (split on whitespace runs,
no empty parts); `acc` holds the current word reversed. -/
def pySplitWsL : List Char → List Char → List String
  | acc, [] => if acc.isEmpty then [] else [String.mk acc.reverse]
  | acc, c :: cs =>
    if c.isWhitespace then
      if acc.isEmpty then pySplitWsL [] cs
      else String.mk acc.reverse :: pySplitWsL [] cs
    else pySplitWsL (c :: acc) cs

/-- Python `s.split()` with no separator argument. -/
def pySplitWs (s : String) : List String :=
  pySplitWsL [] s.data

/-- The single-quote character (written by code point to keep source plain). -/
def quoteChar : Char := Char.ofNat 39

/-- The single-quote as a one-character string. -/
def squote : String := String.singleton quoteChar

/-! ## JSON values as produced by `json.loads` -/

/-- The result of a successful `json.loads` on the language-model response. -/
inductive Json where
  | null : Json
  | bool : Bool → Json
  | num : Int → Json
  | str : String → Json
  | arr : List Json → Json
  | obj : List (String × Json) → Json

/-- Python `==` between a value and a `str` literal: true only when the value
is that string (numbers, lists, dicts, None never equal a string). -/
def Json.eqStr (x : Json) (s : String) : Bool :=
  match x with
  | .str t => t == s
  | _ => false

/-- Key membership in a parsed JSON object (Python `k in dict`). -/
def Json.hasKey (kvs : List (String × Json)) (k : String) : Bool :=
  kvs.any (fun kv => kv.1 == k)

/-- Lookup in a parsed JSON object (Python `dict[k]`; keys are unique). -/
def Json.lookupKey (kvs : List (String × Json)) (k : String) : Option Json :=
  kvs.lookup k

/-- Outcome of Python `needle in hay` where `needle` is a `str` and `hay` an
arbitrary value: membership, non-membership, or a `TypeError` because `hay`
is not a container (int/float/bool/None). -/
inductive MemOut where
  | yes : MemOut
  | no : MemOut
  | typeErr : MemOut
  deriving DecidableEq

/-- Python `needle in hay` for a string needle: substring test on strings,
element equality on lists, key membership on dicts, `TypeError` otherwise. -/
def pyContains (hay : Json) (needle : String) : MemOut :=
  match hay with
  | .str s => if hasSub s needle then .yes else .no
  | .arr xs => if xs.any (fun x => x.eqStr needle) then .yes else .no
  | .obj kvs => if Json.hasKey kvs needle then .yes else .no
  | _ => .typeErr

/-- Python iteration `for x in hay`: a string yields its characters as
one-character strings, a list its elements, a dict its keys; other values
are not iterable. -/
def pyIterItems : Json → Option (List Json)
  | .str s => some (s.data.map (fun c => Json.str (String.singleton c)))
  | .arr xs => some xs
  | .obj kvs => some (kvs.map (fun kv => Json.str kv.1))
  | _ => none

/-! ## `SQLGenerationService._is_semicolon_in_string` -/

/-- The scan loop of `_is_semicolon_in_string`, over the items Python
iteration yields, tracking the `in_string` single-quote parity flag.
Returns `false` as soon as a semicolon item is seen while outside a
single-quoted span. -/
def semiScan (inString : Bool) : List Json → Bool
  | [] => true
  | x :: xs =>
    if x.eqStr squote then semiScan (!inString) xs
    else if x.eqStr ";" && !inString then false
    else semiScan inString xs

/-- `SQLGenerationService._is_semicolon_in_string(query)`: `true` iff every
semicolon yielded by iterating `query` occurs inside a single-quoted span.
Only called on iterable values; a non-iterable argument is mapped to `true`
(the loop body would not run). -/
def is_semicolon_in_string (query : Json) : Bool :=
  match pyIterItems query with
  | some items => semiScan false items
  | none => true

/-- The character-level scan for an actual string query (what the Python
loop does when `query` is a `str`). -/
def semiScanChars (inString : Bool) : List Char → Bool
  | [] => true
  | c :: cs =>
    if c == quoteChar then semiScanChars (!inString) cs
    else if c == ';' && !inString then false
    else semiScanChars inString cs

/-! ## `SQLGenerationService._parse_response` -/

/-- Model text of the `json.JSONDecodeError` wrapper raised when the raw
response is not valid JSON (the embedded response text and json-library
detail are abstracted). -/
def msgInvalidJson : String :=
  "JSON parsing failed. Response must be a valid JSON object with \x27query\x27 and \x27summary\x27 fields."

/-- Model text of the missing-required-fields validation error. -/
def msgMissingFields : String :=
  "Missing required fields. Response must include \x27query\x27 and \x27summary\x27."

/-- Model text of the multiple-statements validation error. -/
def msgMultipleStatements : String :=
  "Multiple SQL statements detected. Only one statement is allowed."

/-- Outcome of `_parse_response`: the parsed dictionary is returned, or a
`json.JSONDecodeError` (validation error) is raised, or a `TypeError`
escapes the `except json.JSONDecodeError` handler. -/
inductive ParseOut where
  | ok : Json → ParseOut
  | jsonError : String → ParseOut
  | typeError : ParseOut

/-- Is the outcome a `json.JSONDecodeError` validation failure? -/
def ParseOut.isValidationError : ParseOut → Bool
  | .jsonError _ => true
  | _ => false

/-- Is the outcome a successful parse? -/
def ParseOut.isSuccess : ParseOut → Bool
  | .ok _ => true
  | _ => false

/-- `SQLGenerationService._parse_response` on an already-`json.loads`-ed
response (`none` = the response text was not valid JSON):
check `'query'`/`'summary'` membership, then reject a query that contains a
semicolon outside a single-quoted literal, else return the parsed value. -/
def parse_response (response : Option Json) : ParseOut :=
  match response with
  | none => .jsonError msgInvalidJson
  | some parsed =>
    match pyContains parsed "query", pyContains parsed "summary" with
    | .typeErr, _ => .typeError
    | _, .typeErr => .typeError
    | .no, _ => .jsonError msgMissingFields
    | _, .no => .jsonError msgMissingFields
    | .yes, .yes =>
      match parsed with
      | .obj kvs =>
        match Json.lookupKey kvs "query" with
        | none => .jsonError msgMissingFields
        | some q =>
          match pyContains q ";" with
          | .typeErr => .typeError
          | .no => .ok parsed
          | .yes =>
            if is_semicolon_in_string q then .ok parsed
            else .jsonError msgMultipleStatements
      | _ => .typeError

/-! ## The specification-side quote-parity predicate (claim C1 wording) -/

/-- Spec wording: every semicolon of `s` occurs while the count of preceding
single quotes is odd. -/
def SpecNoUnquotedSemicolon (s : String) : Prop :=
  ∀ i, (h : i < s.data.length) → s.data.get ⟨i, h⟩ = ';' →
    (s.data.take i).count quoteChar % 2 = 1

instance (s : String) : Decidable (SpecNoUnquotedSemicolon s) := by
  unfold SpecNoUnquotedSemicolon
  infer_instance

/-! ## Result normalization (`DatabaseService.get_data_table`, lines 227-248) -/

/-- Abstract arbitrary-precision decimal (`decimal.Decimal`); only its
identity matters to the normalizer. -/
structure DecimalVal where
  id : Nat
  deriving DecidableEq

/-- Abstract binary floating-point number, the result of Python `float(d)`. -/
structure FloatVal where
  id : Nat
  deriving DecidableEq

/-- Abstract `datetime.datetime` instant. -/
structure DateTimeVal where
  id : Nat
  deriving DecidableEq

/-- A raw cell value as produced by the database driver before
normalization, mirroring the `isinstance` branches of the source. -/
inductive DBValue where
  | none : DBValue
  | bool : Bool → DBValue
  | int : Int → DBValue
  | decimal : DecimalVal → DBValue
  | datetime : DateTimeVal → DBValue
  | str : String → DBValue
  | other : Nat → DBValue
  deriving DecidableEq

/-- A normalized, JSON-transport-safe cell value. -/
inductive CellValue where
  | none : CellValue
  | bool : Bool → CellValue
  | int : Int → CellValue
  | float : FloatVal → CellValue
  | str : String → CellValue
  | other : Nat → CellValue
  deriving DecidableEq

/-- The per-cell normalization of `get_data_table` (lines 236-244):
`Decimal` → `float(value)`, `datetime` → `value.isoformat()`, an `int`
beyond ±9007199254740991 → `str(value)`, everything else unchanged.
`pyFloat` models Python `float(...)` on a Decimal and `isoformat` models
`datetime.isoformat()`; both are opaque external conversions. -/
def normalize_value (pyFloat : DecimalVal → FloatVal) (isoformat : DateTimeVal → String) :
    DBValue → CellValue
  | .decimal d => .float (pyFloat d)
  | .datetime t => .str (isoformat t)
  | .int n => if 9007199254740991 < n ∨ n < -9007199254740991 then .str (toString n) else .int n
  | .none => .none
  | .bool b => .bool b
  | .str s => .str s
  | .other o => .other o

/-- The row-processing loop of `get_data_table` (lines 232-245): each row
becomes a mapping from column name to normalized cell value, in column
order. -/
def process_rows (pyFloat : DecimalVal → FloatVal) (isoformat : DateTimeVal → String)
    (columns : List String) (rows : List (List DBValue)) :
    List (List (String × CellValue)) :=
  rows.map (fun row => (columns.zip row).map (fun p => (p.1, normalize_value pyFloat isoformat p.2)))

/-! ## Query executor (`DatabaseService.get_data_table`, lines 190-252) -/

/-- The closed database-kind enum of `models/schemas.py`. -/
inductive DatabaseType where
  | mysql : DatabaseType
  | postgresql : DatabaseType
  deriving DecidableEq

/-- The scan for `"from"` in lines 204-208: the index one past the first
(lower-cased) `from` token, if any. -/
def find_from_idx : List String → Nat → Option Nat
  | [], _ => none
  | w :: ws, i => if pyLower w == "from" then some (i + 1) else find_from_idx ws (i + 1)

/-- The PostgreSQL schema-qualification block of lines 200-215: when the
token after `from` exists and holds no dot, the query is rebuilt by
joining its whitespace-split tokens with single spaces (the per-token
assignment on line 214 rewrites the same string). -/
def pg_rewrite_query (q : String) : String :=
  let parts := pySplitWs q
  match find_from_idx parts 0 with
  | Option.none => q
  | Option.some i =>
    match parts.get? i with
    | Option.none => q
    | Option.some tableRef =>
      if hasSub tableRef "." then q
      else pyJoin " " parts

/-- The statement actually executed: lines 200-215 rewrite only for a
PostgreSQL connection whose lower-cased query does not start with
`select` or `with`. -/
def effective_query (dbType : DatabaseType) (q : String) : String :=
  if dbType = DatabaseType.postgresql
      && !(pyStartsWith (pyLower q) "select" || pyStartsWith (pyLower q) "with") then
    pg_rewrite_query q
  else q

/-- Line 218: a statement is a write iff its stripped upper-cased text
starts with one of CREATE/DROP/ALTER/INSERT/UPDATE/DELETE. -/
def is_write_query (q : String) : Bool :=
  ["CREATE", "DROP", "ALTER", "INSERT", "UPDATE", "DELETE"].any
    (fun kw => pyStartsWith (pyUpper (pyStrip q)) kw)

/-- What the engine reports for one executed statement: either a row set
(`result.returns_rows`) or an affected-row count (`result.rowcount`). -/
inductive RawResult where
  | rows : List String → List (List DBValue) → RawResult
  | count : Int → RawResult
  deriving DecidableEq

/-- An execution oracle: the database engine runs one SQL string in a
state, returning the post-execution state (which may hold partial effects
when the statement fails) and either a result or an engine error text. -/
def ExecOracle (σ : Type) : Type :=
  σ → String → σ × Except String RawResult

/-- `async with conn.begin(): ...` around one statement: commit keeps the
new state, an error rolls the state back to the savepoint before the
error propagates. -/
def run_in_transaction {σ : Type} (exec : ExecOracle σ) (s : σ) (q : String) :
    σ × Except String RawResult :=
  match exec s q with
  | (s2, .ok r) => (s2, .ok r)
  | (_, .error e) => (s, .error e)

/-- Lines 227-248: rows are normalized per cell; a non-row result becomes
the single `affected_rows` row. -/
def render_result (pyFloat : DecimalVal → FloatVal) (isoformat : DateTimeVal → String) :
    RawResult → List (List (String × CellValue))
  | .rows cols data => process_rows pyFloat isoformat cols data
  | .count n => [[("affected_rows", CellValue.int n)]]

/-- `DatabaseService.get_data_table`: rewrite the query when applicable,
classify it, run writes inside an explicit transaction and reads after a
plain isolation-level statement, wrap engine errors as
`Query execution failed: ...`, and normalize any returned rows. -/
def get_data_table {σ : Type} (exec : ExecOracle σ)
    (pyFloat : DecimalVal → FloatVal) (isoformat : DateTimeVal → String)
    (dbType : DatabaseType) (q : String) (s : σ) :
    σ × Except String (List (List (String × CellValue))) :=
  let q2 := effective_query dbType q
  if is_write_query q2 then
    match run_in_transaction exec s q2 with
    | (s2, .ok raw) => (s2, .ok (render_result pyFloat isoformat raw))
    | (s2, .error e) => (s2, .error ("Query execution failed: " ++ e))
  else
    match exec s "SET TRANSACTION ISOLATION LEVEL READ COMMITTED" with
    | (s1, .error e) => (s1, .error ("Query execution failed: " ++ e))
    | (s1, .ok _) =>
      match exec s1 q2 with
      | (s2, .ok raw) => (s2, .ok (render_result pyFloat isoformat raw))
      | (s2, .error e) => (s2, .error ("Query execution failed: " ++ e))

/-! ## Engine pool (`DatabaseService._get_engine`, lines 39-75)

Timestamps are naturals in milliseconds, so the TTL of 300 seconds is
300000; `(current_time - creation_time).total_seconds() > 300` becomes
`300000 < currentTime - t`.  Engine handles are naturals drawn from a
fresh-handle counter.  The per-key maps are association lists with unique
keys (Python dicts). -/

/-- The three maps of `DatabaseService.__init__` plus a fresh-handle
counter and a log of disposed handles. -/
structure PoolState where
  engines : List (String × Nat)
  engineLocks : List String
  engineCreationTimes : List (String × Nat)
  nextHandle : Nat
  disposed : List Nat
  deriving DecidableEq

/-- Remove `key` from an association list (Python `del d[key]`; keys are
unique). -/
def removeKey (l : List (String × Nat)) (key : String) : List (String × Nat) :=
  l.filter (fun kv => kv.1 ≠ key)

/-- Line 44: the pool key `f"{connection.name}_{connection.database_name}"`. -/
def pool_key (name databaseName : String) : String :=
  name ++ "_" ++ databaseName

/-- `DatabaseService._get_engine`: dispose-and-evict an over-TTL entry
(lines 47-52), then create-and-store under the per-key lock when the key
is absent (lines 55-73), and return the pooled handle (line 75). -/
def get_engine (s : PoolState) (name databaseName : String) (currentTime : Nat) :
    Nat × PoolState :=
  let key := pool_key name databaseName
  let s1 :=
    match s.engines.lookup key with
    | Option.none => s
    | Option.some h =>
      match s.engineCreationTimes.lookup key with
      | Option.none => s
      | Option.some t =>
        if 300000 < currentTime - t then
          { s with
            engines := removeKey s.engines key
            engineCreationTimes := removeKey s.engineCreationTimes key
            disposed := s.disposed ++ [h] }
        else s
  match s1.engines.lookup key with
  | Option.some h => (h, s1)
  | Option.none =>
    let s2 :=
      if s1.engineLocks.contains key then s1
      else { s1 with engineLocks := s1.engineLocks ++ [key] }
    let h := s2.nextHandle
    (h, { s2 with
          engines := s2.engines ++ [(key, h)]
          engineCreationTimes := s2.engineCreationTimes ++ [(key, currentTime)]
          nextHandle := h + 1 })

/-! ## Query classifier (`SQLGenerationService.analyze_query_type`, lines 238-258) -/

/-- The fallback dictionary of line 258. -/
def single_fallback : Json :=
  Json.obj [("query_type", Json.str "single"), ("steps", Json.arr [])]

/-- `analyze_query_type` applied to the classifier response after
`json.loads` (`none` = the response was not parseable JSON): the parsed
value is returned as-is, an unparseable response degrades to the
single-statement fallback instead of raising. -/
def analyze_query_type (response : Option Json) : Json :=
  match response with
  | Option.some j => j
  | Option.none => single_fallback

/-! ## Prompt construction (`SQLGenerationService._build_prompt`, lines 51-99)

String literals transcribe the source f-string templates; a single quote
is written `\x27` and a literal brace `\x7b`/`\x7d`. -/

/-- The fixed instruction-and-examples tail of the generation prompt
(template lines after `{error_context}`). -/
def prompt_tail : String :=
  "\n\nIMPORTANT: \n- Return ONLY ONE SQL statement (no semicolons except in string literals)\n- For operations requiring multiple steps (like cascading deletes), use proper JOIN and WHERE clauses\n- Return a properly formatted JSON object with consistent spacing and no line breaks in the SQL query\n\nHere are two examples of expected outputs:\n\nExample 1 - For the request \"Delete all orders and their related items\":\n\x7b\n    \"query\": \"DELETE FROM orders WHERE order_id IN (SELECT o.order_id FROM orders o JOIN order_items oi ON o.order_id = oi.order_id)\",\n    \"summary\": \"Deletes orders and their related items using a subquery\"\n\x7d\n\nExample 2 - For the request \"Update product prices and related order items\":\n\x7b\n    \"query\": \"UPDATE products p SET price = p.price * 1.1 WHERE product_id IN (SELECT DISTINCT product_id FROM order_items WHERE order_date >= CURRENT_DATE - INTERVAL \x2730 days\x27)\",\n    \"summary\": \"Updates product prices with a 10% increase for products ordered in the last 30 days\"\n\x7d\n\nReturn only a JSON object with two fields:\n1. \x27query\x27: the SQL query (single statement, proper spacing, no line breaks)\n2. \x27summary\x27: a brief explanation of what the query does"

/-- The formatting-rules block appended to a non-empty error context. -/
def error_rules : String :=
  "\n\nPlease ensure your response:\n1. Contains only a SINGLE SQL statement (no semicolons except in string literals)\n2. Is a valid JSON object with \x27query\x27 and \x27summary\x27 fields\n3. Has proper spacing in the SQL query (no extra spaces or line breaks)\n4. Uses simple single quotes for SQL strings (not escaped)\n5. Contains no additional text or formatting outside the JSON object\n6. For DELETE operations with constraints, use proper JOIN and WHERE clauses instead of multiple statements"

/-- Lines 60-70: the error context is empty for an empty history and
otherwise enumerates every prior failure followed by the rules block. -/
def error_context (error_history : List String) : String :=
  if error_history.isEmpty then ""
  else "\n\nPrevious errors encountered:\n- " ++ pyJoin "\n- " error_history ++ error_rules

/-- `SQLGenerationService._build_prompt(prompt, schema, error_history, attempt)`. -/
def build_prompt (prompt schema : String) (error_history : List String) (attempt : Nat) : String :=
  "Given the following database schema:\n" ++ schema
    ++ "\n\nGenerate a SINGLE SQL query for the following request:\n" ++ prompt
    ++ ("\n\nThis is attempt " ++ toString attempt ++ " to generate the correct query.")
    ++ error_context error_history
    ++ prompt_tail

/-! ## Generation orchestrator (`SQLGenerationService.generate_sql`, lines 21-49) -/

/-- Line 44: the failure description appended to the error history. The
`str(e)` detail of the caught `json.JSONDecodeError` is the validator's
message. -/
def attempt_error (attempt : Nat) (msg : String) : String :=
  "Invalid JSON format in attempt " ++ toString attempt ++ ": " ++ msg

/-- Line 49: the message of the `ValueError` raised after the loop; Python
`str(None)` prints `None`. -/
def exhausted_message (lastError : Option String) : String :=
  "Failed to generate valid SQL after 3 attempts. Last error: "
    ++ (match lastError with | Option.none => "None" | Option.some e => e)

/-- Observable outcome of one `generate_sql` call: the parsed result, the
`ValueError` after exhausting the attempts, or an uncaught non-`JSONDecodeError`
exception escaping the loop.  Each outcome carries the final contents of the
(mutated) `error_history` list and the prompts sent to the model, in order. -/
inductive GenOutcome where
  | success : Json → List String → List String → GenOutcome
  | exhausted : String → List String → List String → GenOutcome
  | crashed : List String → List String → GenOutcome

/-- Final `error_history` contents of an outcome. -/
def GenOutcome.history : GenOutcome → List String
  | .success _ h _ => h
  | .exhausted _ h _ => h
  | .crashed h _ => h

/-- Prompts sent to the language model during the call, in order. -/
def GenOutcome.prompts : GenOutcome → List String
  | .success _ _ p => p
  | .exhausted _ _ p => p
  | .crashed _ p => p

/-- The `while attempt <= max_attempts` loop of lines 37-49, compiled with
the explicit iteration budget `remaining = 4 - attempt` (the loop runs
while `attempt ≤ 3` and increments `attempt` each iteration).  `respond n`
is the `json.loads`-ed text of the `n`-th model invocation of this call
(`none` = not valid JSON). -/
def generate_sql_loop (respond : Nat → Option Json) (prompt schema : String) :
    Nat → Nat → List String → Option String → List String → GenOutcome
  | 0, _, hist, lastErr, sent => .exhausted (exhausted_message lastErr) hist sent
  | remaining + 1, attempt, hist, _, sent =>
    match parse_response (respond sent.length) with
    | .ok j => .success j hist (sent ++ [build_prompt prompt schema hist attempt])
    | .typeError => .crashed hist (sent ++ [build_prompt prompt schema hist attempt])
    | .jsonError m =>
      generate_sql_loop respond prompt schema remaining (attempt + 1)
        (hist ++ [attempt_error attempt m]) (Option.some (attempt_error attempt m))
        (sent ++ [build_prompt prompt schema hist attempt])

/-- Line 31-32: an empty schema string is replaced by a placeholder
(Python truthiness of `str`). -/
def schema_or_default (schema : String) : String :=
  if schema = "" then "The database is empty" else schema

/-- `SQLGenerationService.generate_sql(prompt, connection, error_history,
attempt)` with the schema text already generated; `error_history` is the
list object the call starts from and `attempt` the starting attempt
number. -/
def generate_sql (respond : Nat → Option Json) (prompt schema : String)
    (error_history : List String) (attempt : Nat) : GenOutcome :=
  generate_sql_loop respond prompt (schema_or_default schema) (4 - attempt) attempt
    error_history Option.none []

/-- A call to `generate_sql` that omits the `error_history` argument binds
it to the one shared default list object created at function-definition
time; `in-place `append` mutations persist in that object across calls.
The model therefore threads the default list explicitly: the call
consumes the current contents and leaves the outcome's final history as
the new contents. -/
def generate_sql_default_arg (respond : Nat → Option Json) (prompt schema : String)
    (defaultList : List String) : GenOutcome × List String :=
  let o := generate_sql respond prompt schema defaultList 1
  (o, o.history)

/-! ## `json.dumps(..., indent=2)` for the chained prompt -/

/-- `n` space characters. -/
def spacesN (n : Nat) : String := String.mk (List.replicate n (Char.ofNat 32))

/-- Lower-case hexadecimal digit. -/
def hexDigit (n : Nat) : Char :=
  if n < 10 then Char.ofNat (48 + n) else Char.ofNat (87 + (n - 10))

/-- A `\uXXXX` escape. -/
def uEscape4 (v : Nat) : String :=
  "\\u" ++ String.mk [hexDigit (v / 4096 % 16), hexDigit (v / 256 % 16),
    hexDigit (v / 16 % 16), hexDigit (v % 16)]

/-- Per-character JSON string escaping as `json.dumps` performs it with
the default `ensure_ascii=True`. -/
def jsonEscapeChar (c : Char) : String :=
  if c = Char.ofNat 34 then "\\\""
  else if c = Char.ofNat 92 then "\\\\"
  else if c = Char.ofNat 10 then "\\n"
  else if c = Char.ofNat 9 then "\\t"
  else if c = Char.ofNat 13 then "\\r"
  else if c = Char.ofNat 8 then "\\b"
  else if c = Char.ofNat 12 then "\\f"
  else if c.toNat < 32 || 126 < c.toNat then
    if c.toNat < 65536 then uEscape4 c.toNat
    else uEscape4 (55296 + (c.toNat - 65536) / 1024) ++ uEscape4 (56320 + (c.toNat - 65536) % 1024)
  else String.singleton c

/-- A JSON string literal. -/
def jsonQuote (s : String) : String :=
  "\"" ++ String.join (s.data.map jsonEscapeChar) ++ "\""

mutual

/-- `json.dumps(value, indent=2)` at nesting depth `level`. -/
def pyDumps2 : Nat → Json → String
  | _, .null => "null"
  | _, .bool true => "true"
  | _, .bool false => "false"
  | _, .num n => toString n
  | _, .str s => jsonQuote s
  | _, .arr [] => "[]"
  | level, .arr (x :: xs) =>
    "[\n" ++ pyDumpsItems (level + 1) (x :: xs) ++ "\n" ++ spacesN (2 * level) ++ "]"
  | _, .obj [] => "\x7b\x7d"
  | level, .obj (kv :: kvs) =>
    "\x7b\n" ++ pyDumpsFields (level + 1) (kv :: kvs) ++ "\n" ++ spacesN (2 * level) ++ "\x7d"

/-- Array items, one per line, comma-separated. -/
def pyDumpsItems : Nat → List Json → String
  | _, [] => ""
  | level, [x] => spacesN (2 * level) ++ pyDumps2 level x
  | level, x :: y :: xs =>
    spacesN (2 * level) ++ pyDumps2 level x ++ ",\n" ++ pyDumpsItems level (y :: xs)

/-- Object fields, one per line, comma-separated. -/
def pyDumpsFields : Nat → List (String × Json) → String
  | _, [] => ""
  | level, [kv] => spacesN (2 * level) ++ jsonQuote kv.1 ++ ": " ++ pyDumps2 level kv.2
  | level, kv :: kv2 :: kvs =>
    spacesN (2 * level) ++ jsonQuote kv.1 ++ ": " ++ pyDumps2 level kv.2 ++ ",\n"
      ++ pyDumpsFields level (kv2 :: kvs)

end

/-! ## Chained generation (`SQLGenerationService.generate_chained_sql`, lines 260-273) -/

/-- The chain context (spec §3): schema text, the previous step's result
set, and the statements generated so far in the chain.  The source reads
`context['schema']` and `context.get('previous_results', [])`. -/
structure ChainContext where
  schema : String
  previousResults : List Json
  previousQueries : List String

/-- The `full_prompt` f-string of lines 262-270: schema, the
`json.dumps(context.get('previous_results', [])[:3], indent=2)` sample,
and the step description. -/
def build_chained_prompt (context : ChainContext) (stepPrompt : String) : String :=
  "Database schema:\n" ++ context.schema
    ++ "\n\nPrevious step results (sample):\n"
    ++ pyDumps2 0 (Json.arr (context.previousResults.take 3))
    ++ "\n\nCurrent task: " ++ stepPrompt
    ++ "\n\nGenerate SQL that builds on previous results. Return JSON with \x27query\x27 and \x27summary\x27."

/-- `generate_chained_sql`: build the chained prompt, invoke the model
(`respond` maps the prompt to the `json.loads`-ed response) and validate
the response with `_parse_response`. -/
def generate_chained_sql (respond : String → Option Json) (context : ChainContext)
    (stepPrompt : String) : ParseOut :=
  parse_response (respond (build_chained_prompt context stepPrompt))

/-! ## Chain executor (`app.handle_multi_step`, lines 243-272) -/

/-- One step dictionary consumed by `handle_multi_step`
(`step["prompt"]`, `step["query"]`, `step["summary"]`). -/
structure ChainStep where
  prompt : String
  query : String
  summary : String

/-- One completed step appended to `results` (lines 250-255). -/
structure StepResult where
  prompt : String
  query : String
  results : List (List (String × CellValue))
  summary : String

/-- Outcome of `handle_multi_step`: the success dictionary, or the
`HTTPException` detail raised on the first failing step.  `executed`
records the 0-based indices of the steps whose bodies ran, in order. -/
inductive MultiOut where
  | success : List StepResult → String → List Nat → MultiOut
  | failure : String → String → Nat → List StepResult → List Nat → MultiOut

/-- The completed step results carried by an outcome. -/
def MultiOut.steps : MultiOut → List StepResult
  | .success st _ _ => st
  | .failure _ _ _ st _ => st

/-- The executed step indices of an outcome. -/
def MultiOut.executed : MultiOut → List Nat
  | .success _ _ tr => tr
  | .failure _ _ _ _ tr => tr

/-- The `for i, step in enumerate(steps)` loop: `execStep i step` models
the step body (connection lookup plus `get_data_table`), returning
processed rows or the text of the exception.  On the first failure the
loop raises with the completed results, the failure text and the 1-based
failed-step index (lines 256-266). -/
def handle_multi_step_go (execStep : Nat → ChainStep → Except String (List (List (String × CellValue))))
    (total : Nat) :
    List ChainStep → Nat → List StepResult → List Nat → MultiOut
  | [], _, acc, tr => .success acc ("Executed " ++ toString total ++ " steps successfully") tr
  | step :: rest, i, acc, tr =>
    match execStep i step with
    | .ok r =>
      handle_multi_step_go execStep total rest (i + 1)
        (acc ++ [⟨step.prompt, step.query, r, step.summary⟩]) (tr ++ [i])
    | .error e =>
      .failure ("Error in step " ++ toString (i + 1)) e (i + 1) acc (tr ++ [i])

/-- `handle_multi_step(steps, ...)`. -/
def handle_multi_step (execStep : Nat → ChainStep → Except String (List (List (String × CellValue))))
    (steps : List ChainStep) : MultiOut :=
  handle_multi_step_go execStep steps.length steps 0 [] []

/-- The step results a chain run is expected to accumulate for the step
prefix `pre` starting at index `i`, when step `j` produces rows `res j`. -/
def expected_step_results (res : Nat → List (List (String × CellValue))) :
    Nat → List ChainStep → List StepResult
  | _, [] => []
  | i, st :: rest =>
    ⟨st.prompt, st.query, res i, st.summary⟩ :: expected_step_results res (i + 1) rest

/-- The list `[i, i+1, ..., i+n-1]`. -/
def nats_from (i : Nat) : Nat → List Nat
  | 0 => []
  | n + 1 => i :: nats_from (i + 1) n

/-! # Theorems -/

/-! ## Shared string lemmas -/

theorem data_append (s t : String) : (s ++ t).data = s.data ++ t.data := by
  cases s; cases t; rfl

theorem startsL_self_append (p r : List Char) : startsL p (p ++ r) = true := by
  induction p with
  | nil => simp [startsL]
  | cons c cs ih => simp [startsL, ih]

theorem hasSubL_mid (a p b : List Char) : hasSubL p (a ++ (p ++ b)) = true := by
  induction a with
  | nil =>
    simp only [List.nil_append]
    match p with
    | [] =>
      match b with
      | [] => rfl
      | c :: cs => simp [hasSubL, startsL]
    | x :: xs =>
      have h := startsL_self_append (x :: xs) b
      rw [List.cons_append] at h
      simp [hasSubL, h]
  | cons c a2 ih => simp [hasSubL, ih]

theorem singleton_inj (c d : Char) : String.singleton c = String.singleton d ↔ c = d := by
  constructor
  · intro h
    have := congrArg String.data h
    simpa [String.singleton] using this
  · intro h; rw [h]

theorem eqStr_singleton (c d : Char) :
    Json.eqStr (Json.str (String.singleton c)) (String.singleton d) = (c == d) := by
  simp only [Json.eqStr]
  by_cases h : c = d
  · subst h; simp
  · have hne : String.singleton c ≠ String.singleton d := fun hh => h ((singleton_inj c d).1 hh)
    simp [h, hne]

theorem semi_as_singleton : (";" : String) = String.singleton ';' := rfl

/-! ## Lemmas about the semicolon scan (C1) -/

theorem semiScan_map (cs : List Char) : ∀ b,
    semiScan b (cs.map (fun c => Json.str (String.singleton c))) = semiScanChars b cs := by
  induction cs with
  | nil => intro b; rfl
  | cons c rest ih =>
    intro b
    by_cases h1 : c = quoteChar
    · subst h1
      simp [semiScan, semiScanChars, squote, eqStr_singleton, ih]
    · by_cases h2 : c = ';'
      · subst h2
        simp [semiScan, semiScanChars, squote, semi_as_singleton, eqStr_singleton, h1, ih]
      · simp [semiScan, semiScanChars, squote, semi_as_singleton, eqStr_singleton, h1, h2, ih]

theorem is_semicolon_in_string_str (s : String) :
    is_semicolon_in_string (Json.str s) = semiScanChars false s.data := by
  simp [is_semicolon_in_string, pyIterItems, semiScan_map]

theorem quote_ne_semi : quoteChar ≠ ';' := by decide

theorem semiScanChars_iff (cs : List Char) : ∀ b, semiScanChars b cs = true ↔
    (∀ i, (h : i < cs.length) → cs.get ⟨i, h⟩ = ';' →
      ((cs.take i).count quoteChar + cond b 1 0) % 2 = 1) := by
  induction cs with
  | nil => intro b; simp [semiScanChars]
  | cons c rest ih =>
    intro b
    by_cases h1 : c = quoteChar
    · subst h1
      have step : semiScanChars b (quoteChar :: rest) = semiScanChars (!b) rest := by
        simp [semiScanChars]
      rw [step, ih (!b)]
      constructor
      · intro H i h hget
        match i, h with
        | 0, h => exact absurd hget quote_ne_semi
        | Nat.succ j, h =>
          have hj : j < rest.length := by simpa using h
          have hget2 : rest.get ⟨j, hj⟩ = ';' := by simpa using hget
          have := H j hj hget2
          simp only [List.take_succ_cons, List.count_cons_self]
          cases b <;> simp only [Bool.not_true, Bool.not_false, cond_true, cond_false] at this ⊢ <;> omega
      · intro H i h hget
        have h2 : i + 1 < (quoteChar :: rest).length := by simpa using Nat.succ_lt_succ h
        have hget2 : (quoteChar :: rest).get ⟨i + 1, h2⟩ = ';' := by simpa using hget
        have := H (i + 1) h2 hget2
        simp only [List.take_succ_cons, List.count_cons_self] at this
        cases b <;> simp only [Bool.not_true, Bool.not_false, cond_true, cond_false] at this ⊢ <;> omega
    · by_cases h2 : c = ';'
      · subst h2
        cases b with
        | false =>
          have step : semiScanChars false (';' :: rest) = false := by
            simp [semiScanChars, h1]
          rw [step]
          constructor
          · intro H; cases H
          · intro H
            have := H 0 (by simp) (by simp)
            simp at this
        | true =>
          have step : semiScanChars true (';' :: rest) = semiScanChars true rest := by
            simp [semiScanChars, h1]
          rw [step, ih true]
          constructor
          · intro H i h hget
            match i, h with
            | 0, h => simp [List.count_nil]
            | Nat.succ j, h =>
              have hj : j < rest.length := by simpa using h
              have hget2 : rest.get ⟨j, hj⟩ = ';' := by simpa using hget
              have := H j hj hget2
              simp only [List.take_succ_cons, List.count_cons_of_ne quote_ne_semi]
              exact this
          · intro H i h hget
            have h2 : i + 1 < (';' :: rest).length := by simpa using Nat.succ_lt_succ h
            have hget2 : (';' :: rest).get ⟨i + 1, h2⟩ = ';' := by simpa using hget
            have := H (i + 1) h2 hget2
            simp only [List.take_succ_cons, List.count_cons_of_ne quote_ne_semi] at this
            exact this
      · have step : semiScanChars b (c :: rest) = semiScanChars b rest := by
          simp [semiScanChars, h1, h2]
        rw [step, ih b]
        constructor
        · intro H i h hget
          match i, h with
          | 0, h => exact absurd hget (by simpa using h2)
          | Nat.succ j, h =>
            have hj : j < rest.length := by simpa using h
            have hget2 : rest.get ⟨j, hj⟩ = ';' := by simpa using hget
            have := H j hj hget2
            simp only [List.take_succ_cons, List.count_cons_of_ne (Ne.symm h1)]
            exact this
        · intro H i h hget
          have h2c : i + 1 < (c :: rest).length := by simpa using Nat.succ_lt_succ h
          have hget2 : (c :: rest).get ⟨i + 1, h2c⟩ = ';' := by simpa using hget
          have := H (i + 1) h2c hget2
          simp only [List.take_succ_cons, List.count_cons_of_ne (Ne.symm h1)] at this
          exact this

theorem semiScanChars_false_iff_spec (s : String) :
    semiScanChars false s.data = true ↔ SpecNoUnquotedSemicolon s := by
  rw [semiScanChars_iff s.data false]
  unfold SpecNoUnquotedSemicolon
  constructor
  · intro H i h hget
    have := H i h hget
    simpa using this
  · intro H i h hget
    have := H i h hget
    simpa using this

theorem hasSub_semi_iff (s : String) : hasSub s ";" = true ↔ ';' ∈ s.data := by
  show hasSubL [';'] s.data = true ↔ ';' ∈ s.data
  induction s.data with
  | nil => simp [hasSubL]
  | cons c cs ih =>
    simp only [hasSubL, startsL, List.mem_cons]
    constructor
    · intro H
      rcases Bool.or_eq_true_iff.1 H with h | h
      · left
        have := (Bool.and_eq_true_iff.1 h).1
        exact beq_iff_eq.1 this
      · right; exact ih.1 h
    · intro H
      rcases H with h | h
      · subst h; simp [startsL]
      · simp [ih.2 h]

theorem spec_of_no_semi (s : String) (h : ';' ∉ s.data) : SpecNoUnquotedSemicolon s := by
  intro i hi hget
  exact absurd (hget ▸ List.get_mem s.data i hi) h

theorem lookupKey_some_hasKey (kvs : List (String × Json)) (k : String) (v : Json)
    (h : Json.lookupKey kvs k = some v) : Json.hasKey kvs k = true := by
  induction kvs with
  | nil => simp [Json.lookupKey, List.lookup] at h
  | cons kv rest ih =>
    simp only [Json.lookupKey, List.lookup] at h
    by_cases hk : kv.1 = k
    · simp [Json.hasKey, hk]
    · have hb : (kv.1 == k) = false := by simp [hk]
      have hb2 : (k == kv.1) = false := by
        simp only [beq_eq_false_iff_ne, ne_eq]
        intro hh
        exact hk hh.symm
      rw [hb2] at h
      simp only [Json.hasKey, List.any_cons, hb, Bool.false_or]
      exact ih h

/-! ## Claim C1 -/

/-- C1 counterexample: the response text `5` is valid JSON and lacks both
required fields, so the claim demands a validation failure; the parser
instead evaluates `'query' in 5`, which raises a `TypeError` that escapes
the `except json.JSONDecodeError` handler — neither a success nor a
validation error. -/
theorem c1_counterexample :
    parse_response (Option.some (Json.num 5)) = ParseOut.typeError
    ∧ (parse_response (Option.some (Json.num 5))).isValidationError = false
    ∧ (parse_response (Option.some (Json.num 5))).isSuccess = false :=
  ⟨rfl, rfl, rfl⟩

/-- C1 (amended): restricted to responses that are not valid JSON or parse
to a JSON *object* whose `query` member (when both fields are present) is a
string, `_parse_response` succeeds and returns the parsed object exactly
when both a `query` and a `summary` field are present and the query string
has no semicolon outside a single-quoted span (quote-parity scan); in every
other such case it fails with a validation error.  (Valid-JSON non-object
responses, or objects whose `query` value is a non-string non-container,
can instead raise a `TypeError`, per `c1_counterexample`.) -/
theorem c1_parse_characterization (r : Option Json) :
    (r = Option.none → parse_response r = ParseOut.jsonError msgInvalidJson) ∧
    (∀ kvs, r = Option.some (Json.obj kvs) →
      ((Json.hasKey kvs "query" = false ∨ Json.hasKey kvs "summary" = false) →
        parse_response r = ParseOut.jsonError msgMissingFields) ∧
      (∀ s, Json.lookupKey kvs "query" = Option.some (Json.str s) →
        Json.hasKey kvs "summary" = true →
          ((SpecNoUnquotedSemicolon s → parse_response r = ParseOut.ok (Json.obj kvs)) ∧
           (¬ SpecNoUnquotedSemicolon s →
             parse_response r = ParseOut.jsonError msgMultipleStatements)))) := by
  refine ⟨?_, ?_⟩
  · rintro rfl; rfl
  · rintro kvs rfl
    refine ⟨?_, ?_⟩
    · intro hmiss
      rcases hmiss with h | h
      · by_cases h2 : Json.hasKey kvs "summary" <;>
          simp [parse_response, pyContains, h, h2]
      · by_cases h1 : Json.hasKey kvs "query" <;>
          simp [parse_response, pyContains, h, h1]
    · intro s hlook hsum
      have hq : Json.hasKey kvs "query" = true := lookupKey_some_hasKey _ _ _ hlook
      by_cases hsemi : hasSub s ";" = true
      · refine ⟨?_, ?_⟩
        · intro hspec
          have hscan : is_semicolon_in_string (Json.str s) = true := by
            rw [is_semicolon_in_string_str]
            exact (semiScanChars_false_iff_spec s).2 hspec
          simp [parse_response, pyContains, hq, hsum, hlook, hsemi, hscan]
        · intro hspec
          have hfalse : semiScanChars false s.data = false := by
            cases hb : semiScanChars false s.data
            · rfl
            · exact absurd ((semiScanChars_false_iff_spec s).1 hb) hspec
          have hscan : is_semicolon_in_string (Json.str s) = false := by
            rw [is_semicolon_in_string_str]; exact hfalse
          simp [parse_response, pyContains, hq, hsum, hlook, hsemi, hscan]
      · have hnos : ';' ∉ s.data := fun hmem => hsemi ((hasSub_semi_iff s).2 hmem)
        have hspec0 : SpecNoUnquotedSemicolon s := spec_of_no_semi s hnos
        refine ⟨?_, ?_⟩
        · intro _
          simp [parse_response, pyContains, hq, hsum, hlook, hsemi]
        · intro hns
          exact absurd hspec0 hns

/-- C1 witness: a concrete well-formed response is accepted and returned
unchanged by `c1_parse_characterization`. -/
theorem c1_witness :
    parse_response (Option.some (Json.obj [("query", Json.str "SELECT 1"), ("summary", Json.str "done")]))
      = ParseOut.ok (Json.obj [("query", Json.str "SELECT 1"), ("summary", Json.str "done")]) := by
  have h := (c1_parse_characterization
    (Option.some (Json.obj [("query", Json.str "SELECT 1"), ("summary", Json.str "done")]))).2
  exact ((h _ rfl).2 "SELECT 1" rfl rfl).1 (by decide)

/-! ## Claim C2 -/

/-- C2: the executor's per-cell normalization maps None to None, a Decimal
to the floating-point number `float(d)`, a datetime to its ISO-8601 string
`isoformat(t)`, an integer of magnitude above 9007199254740991 to its
decimal string, an integer of magnitude at most 9007199254740991 to
itself, and every other value to itself; and the executor applies exactly
this normalization to every cell of every returned row. -/
theorem c2_normalization (pyFloat : DecimalVal → FloatVal) (isoformat : DateTimeVal → String)
    (v : DBValue) :
    (v = DBValue.none → normalize_value pyFloat isoformat v = CellValue.none) ∧
    (∀ d, v = DBValue.decimal d → normalize_value pyFloat isoformat v = CellValue.float (pyFloat d)) ∧
    (∀ t, v = DBValue.datetime t → normalize_value pyFloat isoformat v = CellValue.str (isoformat t)) ∧
    (∀ n, v = DBValue.int n → 9007199254740991 < |n| →
      normalize_value pyFloat isoformat v = CellValue.str (toString n)) ∧
    (∀ n, v = DBValue.int n → |n| ≤ 9007199254740991 →
      normalize_value pyFloat isoformat v = CellValue.int n) ∧
    (∀ b, v = DBValue.bool b → normalize_value pyFloat isoformat v = CellValue.bool b) ∧
    (∀ s, v = DBValue.str s → normalize_value pyFloat isoformat v = CellValue.str s) ∧
    (∀ o, v = DBValue.other o → normalize_value pyFloat isoformat v = CellValue.other o) ∧
    (∀ cols rows, process_rows pyFloat isoformat cols rows =
      rows.map (fun row => (cols.zip row).map (fun p => (p.1, normalize_value pyFloat isoformat p.2)))) := by
  refine ⟨?_, ?_, ?_, ?_, ?_, ?_, ?_, ?_, ?_⟩
  · rintro rfl; rfl
  · rintro d rfl; rfl
  · rintro t rfl; rfl
  · rintro n rfl h
    have hcond : 9007199254740991 < n ∨ n < -9007199254740991 := by
      rcases lt_abs.mp h with h1 | h1
      · left; exact h1
      · right; omega
    simp only [normalize_value]
    rw [if_pos hcond]
  · rintro n rfl h
    have habs := abs_le.mp h
    have hcond : ¬(9007199254740991 < n ∨ n < -9007199254740991) := by omega
    simp only [normalize_value]
    rw [if_neg hcond]
  · rintro b rfl; rfl
  · rintro s rfl; rfl
  · rintro o rfl; rfl
  · intro cols rows; rfl

/-- C2 witness: the first oversized integer becomes its decimal string and
a small integer is unchanged. -/
theorem c2_witness :
    normalize_value (fun _ => FloatVal.mk 0) (fun _ => "1970-01-01T00:00:00") (DBValue.int 9007199254740992)
      = CellValue.str "9007199254740992"
    ∧ normalize_value (fun _ => FloatVal.mk 0) (fun _ => "1970-01-01T00:00:00") (DBValue.int 42)
      = CellValue.int 42 := by
  constructor
  · exact (c2_normalization (fun _ => FloatVal.mk 0) (fun _ => "1970-01-01T00:00:00")
      (DBValue.int 9007199254740992)).2.2.2.1 _ rfl (by decide)
  · exact (c2_normalization (fun _ => FloatVal.mk 0) (fun _ => "1970-01-01T00:00:00")
      (DBValue.int 42)).2.2.2.2.1 _ rfl (by decide)

/-! ## Claim C3 -/

/-- C3: starting at attempt 1 with every model response failing validation,
`generate_sql` performs exactly 3 attempts (the three listed prompts, and
no fourth), appends exactly the 3 failure descriptions to the error
history in attempt order without clearing earlier entries, and raises the
exhaustion error whose message names the last failure while the error
history carries all accumulated entries. -/
theorem c3_exhausts_after_three_attempts (respond : Nat → Option Json)
    (prompt schema : String) (hist : List String)
    (hfail : ∀ n, ∃ m, parse_response (respond n) = ParseOut.jsonError m) :
    ∃ m1 m2 m3,
      generate_sql respond prompt schema hist 1 =
        GenOutcome.exhausted (exhausted_message (Option.some (attempt_error 3 m3)))
          (hist ++ [attempt_error 1 m1, attempt_error 2 m2, attempt_error 3 m3])
          [build_prompt prompt (schema_or_default schema) hist 1,
           build_prompt prompt (schema_or_default schema) (hist ++ [attempt_error 1 m1]) 2,
           build_prompt prompt (schema_or_default schema)
             (hist ++ [attempt_error 1 m1, attempt_error 2 m2]) 3] := by
  obtain ⟨m1, h1⟩ := hfail 0
  obtain ⟨m2, h2⟩ := hfail 1
  obtain ⟨m3, h3⟩ := hfail 2
  refine ⟨m1, m2, m3, ?_⟩
  simp [generate_sql, generate_sql_loop, h1, h2, h3]

/-- C3 witness: with every response malformed JSON, the concrete run ends
exhausted with the three failure descriptions. -/
theorem c3_witness :
    (∀ n, ∃ m, parse_response ((fun _ : Nat => (Option.none : Option Json)) n) = ParseOut.jsonError m)
    ∧ ∃ m1 m2 m3,
      generate_sql (fun _ : Nat => (Option.none : Option Json)) "list the five oldest users" "" [] 1 =
        GenOutcome.exhausted (exhausted_message (Option.some (attempt_error 3 m3)))
          ([] ++ [attempt_error 1 m1, attempt_error 2 m2, attempt_error 3 m3])
          [build_prompt "list the five oldest users" (schema_or_default "") [] 1,
           build_prompt "list the five oldest users" (schema_or_default "")
             ([] ++ [attempt_error 1 m1]) 2,
           build_prompt "list the five oldest users" (schema_or_default "")
             ([] ++ [attempt_error 1 m1, attempt_error 2 m2]) 3] :=
  ⟨fun _ => ⟨msgInvalidJson, rfl⟩,
   c3_exhausts_after_three_attempts (fun _ : Nat => (Option.none : Option Json)) "list the five oldest users" "" []
     (fun _ => ⟨msgInvalidJson, rfl⟩)⟩

/-! ## Claim C4 -/

/-- One more substring helper: a substring of `l` is a substring of `x ++ l`. -/
theorem hasSubL_append_left (x : List Char) {p l : List Char} (h : hasSubL p l = true) :
    hasSubL p (x ++ l) = true := by
  induction x with
  | nil => simpa using h
  | cons c x2 ih => simp [hasSubL, ih]

/-- C4 counterexample: for a chain context whose previous step produced 4
rows and one prior generated statement, the chained-generation prompt
contains neither the 4th row's content nor the prior statement — the
prompt embeds only a 3-row sample and no prior statements, contradicting
the claim that it embeds the full result set and every statement so far. -/
theorem c4_counterexample :
    let ctx : ChainContext := ⟨"users(id integer, name text)",
      [Json.str "r1", Json.str "r2", Json.str "r3", Json.str "ROW4SECRET"],
      ["SELECT prior FROM q1"]⟩
    ctx.previousResults.get? 3 = Option.some (Json.str "ROW4SECRET")
    ∧ ctx.previousQueries = ["SELECT prior FROM q1"]
    ∧ hasSub (build_chained_prompt ctx "count the rows") "ROW4SECRET" = false
    ∧ hasSub (build_chained_prompt ctx "count the rows") "SELECT prior FROM q1" = false := by
  refine ⟨rfl, rfl, ?_, ?_⟩ <;> decide

/-- C4 (amended): the chained-generation prompt embeds the schema and the
`json.dumps` rendering of a sample of at most the first 3 rows of the
previous step's result set — not the full set — and is independent of the
statements generated so far in the chain (they are not embedded). -/
theorem c4_prompt_embeds_sample_only (context : ChainContext) (stepPrompt : String) :
    build_chained_prompt context stepPrompt =
      build_chained_prompt ⟨context.schema, context.previousResults.take 3, context.previousQueries⟩ stepPrompt
    ∧ (∀ qs, build_chained_prompt ⟨context.schema, context.previousResults, qs⟩ stepPrompt
        = build_chained_prompt context stepPrompt)
    ∧ hasSub (build_chained_prompt context stepPrompt) context.schema = true
    ∧ hasSub (build_chained_prompt context stepPrompt)
        (pyDumps2 0 (Json.arr (context.previousResults.take 3))) = true := by
  refine ⟨?_, ?_, ?_, ?_⟩
  · simp [build_chained_prompt, List.take_take]
  · intro qs; rfl
  · show hasSubL context.schema.data _ = true
    simp only [build_chained_prompt, data_append, List.append_assoc]
    exact hasSubL_append_left _ (hasSubL_mid [] _ _)
  · show hasSubL (pyDumps2 0 (Json.arr (context.previousResults.take 3))).data _ = true
    simp only [build_chained_prompt, data_append, List.append_assoc]
    exact hasSubL_append_left _ (hasSubL_append_left _ (hasSubL_append_left _ (hasSubL_mid [] _ _)))

/-! ## Claim C5 -/

/-- Generalized loop invariant for `handle_multi_step_go`: if every step of
the prefix succeeds and the next step fails, the loop raises with the
accumulated results, the failure text, the 1-based failed index, and an
execution trace that stops at the failing step. -/
theorem handle_multi_step_go_first_failure
    (execStep : Nat → ChainStep → Except String (List (List (String × CellValue))))
    (res : Nat → List (List (String × CellValue))) (e : String) (failStep : ChainStep)
    (post : List ChainStep) (total : Nat) :
    ∀ (pre : List ChainStep) (i : Nat) (acc : List StepResult) (tr : List Nat),
      (∀ j, (hj : j < pre.length) → execStep (i + j) (pre.get ⟨j, hj⟩) = Except.ok (res (i + j))) →
      execStep (i + pre.length) failStep = Except.error e →
      handle_multi_step_go execStep total (pre ++ failStep :: post) i acc tr =
        MultiOut.failure ("Error in step " ++ toString (i + pre.length + 1)) e
          (i + pre.length + 1) (acc ++ expected_step_results res i pre)
          (tr ++ nats_from i (pre.length + 1)) := by
  intro pre
  induction pre with
  | nil =>
    intro i acc tr _ hfail
    have hfail0 : execStep i failStep = Except.error e := by simpa using hfail
    simp [handle_multi_step_go, hfail0, expected_step_results, nats_from]
  | cons st pre2 ih =>
    intro i acc tr hsucc hfail
    have h0 : execStep i st = Except.ok (res i) := by simpa using hsucc 0 (by simp)
    have hsucc2 : ∀ j, (hj : j < pre2.length) →
        execStep (i + 1 + j) (pre2.get ⟨j, hj⟩) = Except.ok (res (i + 1 + j)) := by
      intro j hj
      have := hsucc (j + 1) (by simpa using Nat.succ_lt_succ hj)
      have harith : i + (j + 1) = i + 1 + j := by omega
      simpa [harith] using this
    have hfail2 : execStep (i + 1 + pre2.length) failStep = Except.error e := by
      have harith : i + (st :: pre2).length = i + 1 + pre2.length := by simp; omega
      rw [harith] at hfail
      exact hfail
    have ihh := ih (i + 1) (acc ++ [⟨st.prompt, st.query, res i, st.summary⟩]) (tr ++ [i])
      hsucc2 hfail2
    simp only [List.cons_append, handle_multi_step_go, h0, List.append_eq]
    rw [ihh]
    have harith2 : i + (st :: pre2).length + 1 = i + 1 + pre2.length + 1 := by simp; omega
    rw [show (st :: pre2).length = pre2.length + 1 from rfl]
    rw [show i + (pre2.length + 1) + 1 = i + 1 + pre2.length + 1 from by omega]
    simp [expected_step_results, nats_from, List.append_assoc]

/-- C5: when the steps before index `k = pre.length` all succeed and step
`k` fails, `handle_multi_step` raises carrying exactly the `k` completed
step results in order, the failure text, and the 1-based identity `k + 1`
of the failed step; the executed indices are exactly `0..k`, so no step
after the failing one ever runs. -/
theorem c5_chain_stops_at_first_failure
    (execStep : Nat → ChainStep → Except String (List (List (String × CellValue))))
    (res : Nat → List (List (String × CellValue))) (e : String)
    (pre : List ChainStep) (failStep : ChainStep) (post : List ChainStep)
    (hsucc : ∀ j, (hj : j < pre.length) → execStep j (pre.get ⟨j, hj⟩) = Except.ok (res j))
    (hfail : execStep pre.length failStep = Except.error e) :
    handle_multi_step execStep (pre ++ failStep :: post) =
      MultiOut.failure ("Error in step " ++ toString (pre.length + 1)) e (pre.length + 1)
        (expected_step_results res 0 pre) (nats_from 0 (pre.length + 1)) := by
  have h := handle_multi_step_go_first_failure execStep res e failStep post
    (pre ++ failStep :: post).length pre 0 [] []
    (by intro j hj; simpa using hsucc j hj) (by simpa using hfail)
  simpa [handle_multi_step] using h

/-- C5 witness: a chain of 3 steps whose step 2 fails returns exactly the
one completed step result plus the step-2 failure; step 3 never runs. -/
theorem c5_witness :
    handle_multi_step
      (fun i _ => if i = 0 then Except.ok [[("id", CellValue.int 1)]] else Except.error "boom")
      [⟨"step one", "SELECT 1", "sum1"⟩, ⟨"step two", "SELECT 2", "sum2"⟩,
       ⟨"step three", "SELECT 3", "sum3"⟩] =
      MultiOut.failure "Error in step 2" "boom" 2
        [⟨"step one", "SELECT 1", [[("id", CellValue.int 1)]], "sum1"⟩] [0, 1] := by
  have h := c5_chain_stops_at_first_failure
    (fun i _ => if i = 0 then Except.ok [[("id", CellValue.int 1)]] else Except.error "boom")
    (fun _ => [[("id", CellValue.int 1)]]) "boom"
    [⟨"step one", "SELECT 1", "sum1"⟩] ⟨"step two", "SELECT 2", "sum2"⟩
    [⟨"step three", "SELECT 3", "sum3"⟩]
    (by intro j hj; simp only [List.length_singleton] at hj; interval_cases j; rfl) rfl
  exact h

/-! ## Claim C6 -/

/-- C6: a statement is classified as a write exactly when its trimmed text
starts, case-insensitively, with CREATE/DROP/ALTER/INSERT/UPDATE/DELETE;
a write statement runs inside an explicit transaction — on an execution
error the target state is rolled back to the pre-statement state before
the error propagates, on success the new state is committed — while a
read statement runs without such wrapping, so an execution error there
leaves whatever state the engine produced. -/
theorem c6_write_classification_and_transaction {σ : Type}
    (exec : ExecOracle σ) (pyFloat : DecimalVal → FloatVal) (isoformat : DateTimeVal → String)
    (dbType : DatabaseType) (q : String) (s : σ) :
    (is_write_query q = true ↔
      ∃ kw ∈ (["CREATE", "DROP", "ALTER", "INSERT", "UPDATE", "DELETE"] : List String),
        pyStartsWith (pyUpper (pyStrip q)) kw = true) ∧
    (is_write_query (effective_query dbType q) = true →
      (∀ e s2, exec s (effective_query dbType q) = (s2, Except.error e) →
        get_data_table exec pyFloat isoformat dbType q s =
          (s, Except.error ("Query execution failed: " ++ e))) ∧
      (∀ raw s2, exec s (effective_query dbType q) = (s2, Except.ok raw) →
        get_data_table exec pyFloat isoformat dbType q s =
          (s2, Except.ok (render_result pyFloat isoformat raw)))) ∧
    (is_write_query (effective_query dbType q) = false →
      ∀ s1 r1, exec s "SET TRANSACTION ISOLATION LEVEL READ COMMITTED" = (s1, Except.ok r1) →
        (∀ e s2, exec s1 (effective_query dbType q) = (s2, Except.error e) →
          get_data_table exec pyFloat isoformat dbType q s =
            (s2, Except.error ("Query execution failed: " ++ e))) ∧
        (∀ raw s2, exec s1 (effective_query dbType q) = (s2, Except.ok raw) →
          get_data_table exec pyFloat isoformat dbType q s =
            (s2, Except.ok (render_result pyFloat isoformat raw)))) := by
  refine ⟨?_, ?_, ?_⟩
  · simp [is_write_query, List.any_eq_true]
  · intro hw
    refine ⟨?_, ?_⟩
    · intro e s2 hexec
      simp [get_data_table, hw, run_in_transaction, hexec]
    · intro raw s2 hexec
      simp [get_data_table, hw, run_in_transaction, hexec]
  · intro hr s1 r1 hset
    refine ⟨?_, ?_⟩
    · intro e s2 hexec
      simp [get_data_table, hr, hset, hexec]
    · intro raw s2 hexec
      simp [get_data_table, hr, hset, hexec]

/-- C6 witness: a failing `DROP` leaves the state at its pre-transaction
value (the oracle's dirty state is discarded) and the error is wrapped
verbatim. -/
theorem c6_witness :
    get_data_table
      (fun (s : Nat) q => if q = "DROP TABLE tt" then (s + 1, Except.error "fk violation")
        else (s, Except.ok (RawResult.count 0)))
      (fun _ => FloatVal.mk 0) (fun _ => "")
      DatabaseType.mysql "DROP TABLE tt" 0 =
      (0, Except.error ("Query execution failed: " ++ "fk violation")) := by
  have h := (c6_write_classification_and_transaction
    (fun (s : Nat) q => if q = "DROP TABLE tt" then (s + 1, Except.error "fk violation")
      else (s, Except.ok (RawResult.count 0)))
    (fun _ => FloatVal.mk 0) (fun _ => "")
    DatabaseType.mysql "DROP TABLE tt" 0).2.1 (by decide)
  exact h.1 "fk violation" 1 rfl

/-! ## Claim C7 -/

/-- Lookup after removal of a key finds nothing. -/
theorem lookup_removeKey (l : List (String × Nat)) (k : String) :
    (removeKey l k).lookup k = Option.none := by
  induction l with
  | nil => rfl
  | cons kv rest ih =>
    by_cases hk : kv.1 = k
    · simpa [removeKey, List.filter_cons, hk] using ih
    · have hb : (k == kv.1) = false := by
        simp only [beq_eq_false_iff_ne, ne_eq]
        intro hh; exact hk hh.symm
      simpa [removeKey, List.filter_cons, hk, List.lookup, hb] using ih

/-- Lookup skips an association-list prefix that lacks the key. -/
theorem lookup_append_none (l1 l2 : List (String × Nat)) (k : String)
    (h : l1.lookup k = Option.none) : (l1 ++ l2).lookup k = l2.lookup k := by
  induction l1 with
  | nil => rfl
  | cons kv rest ih =>
    simp only [List.lookup, List.cons_append] at h ⊢
    cases hb : (k == kv.1) with
    | true => rw [hb] at h; cases h
    | false =>
      rw [hb] at h
      exact ih h

/-- C7: for a pooled entry with a recorded creation time, an acquisition
that sees it aged over the 300000 ms TTL disposes the old handle, removes
the entry and its timestamp from both maps, and stores a fresh handle
(the counter value, never the old handle) under the key with the current
time; an entry aged at most the TTL is returned unchanged with the state
untouched. -/
theorem c7_ttl_eviction (s : PoolState) (name dbName : String) (now h t : Nat)
    (hEng : s.engines.lookup (pool_key name dbName) = Option.some h)
    (hT : s.engineCreationTimes.lookup (pool_key name dbName) = Option.some t) :
    (300000 < now - t →
      (get_engine s name dbName now).1 = s.nextHandle ∧
      (h < s.nextHandle → (get_engine s name dbName now).1 ≠ h) ∧
      (get_engine s name dbName now).2.disposed = s.disposed ++ [h] ∧
      (get_engine s name dbName now).2.engines =
        removeKey s.engines (pool_key name dbName) ++ [(pool_key name dbName, s.nextHandle)] ∧
      (get_engine s name dbName now).2.engineCreationTimes =
        removeKey s.engineCreationTimes (pool_key name dbName) ++ [(pool_key name dbName, now)] ∧
      (get_engine s name dbName now).2.engines.lookup (pool_key name dbName) =
        Option.some s.nextHandle) ∧
    (now - t ≤ 300000 → get_engine s name dbName now = (h, s)) := by
  constructor
  · intro hexp
    have hlookgone : (removeKey s.engines (pool_key name dbName)).lookup (pool_key name dbName)
        = Option.none := lookup_removeKey _ _
    have hlookfresh :
        ((removeKey s.engines (pool_key name dbName)
            ++ [(pool_key name dbName, s.nextHandle)]).lookup (pool_key name dbName))
          = Option.some s.nextHandle := by
      rw [lookup_append_none _ _ _ hlookgone]
      simp [List.lookup]
    have hmain : ∃ locks2, get_engine s name dbName now =
        (s.nextHandle,
          { engines := removeKey s.engines (pool_key name dbName)
              ++ [(pool_key name dbName, s.nextHandle)]
            engineLocks := locks2
            engineCreationTimes := removeKey s.engineCreationTimes (pool_key name dbName)
              ++ [(pool_key name dbName, now)]
            nextHandle := s.nextHandle + 1
            disposed := s.disposed ++ [h] }) := by
      by_cases hmem : pool_key name dbName ∈ s.engineLocks
      · exact ⟨s.engineLocks, by simp [get_engine, hEng, hT, hexp, hlookgone, hmem]⟩
      · exact ⟨s.engineLocks ++ [pool_key name dbName],
          by simp [get_engine, hEng, hT, hexp, hlookgone, hmem]⟩
    obtain ⟨locks2, hm⟩ := hmain
    rw [hm]
    exact ⟨rfl, fun hlt heq => absurd heq.symm (Nat.ne_of_lt hlt), rfl, rfl, rfl, hlookfresh⟩
  · intro hle
    have hnoexp : ¬ 300000 < now - t := by omega
    simp [get_engine, hEng, hT, hnoexp]

/-- C7 witness: a 301001 ms acquisition of an entry created at 1000 ms
(age 300001 ms) disposes handle 7 and returns the fresh handle 8. -/
theorem c7_witness :
    (get_engine ⟨[("conn_db", 7)], ["conn_db"], [("conn_db", 1000)], 8, []⟩
      "conn" "db" 301001).1 = 8
    ∧ (get_engine ⟨[("conn_db", 7)], ["conn_db"], [("conn_db", 1000)], 8, []⟩
      "conn" "db" 301001).2.disposed = [] ++ [7] := by
  have hc := c7_ttl_eviction ⟨[("conn_db", 7)], ["conn_db"], [("conn_db", 1000)], 8, []⟩
    "conn" "db" 301001 7 1000 rfl rfl
  have h1 := hc.1 (by decide)
  exact ⟨h1.1, h1.2.2.1⟩

/-! ## Claim C8 -/

/-- C8: an unparseable classifier response yields the single-statement
fallback dictionary (kind `single`, empty step list) instead of raising —
`analyze_query_type` is total on `Option Json` and maps the parse-failure
case to the fallback. -/
theorem c8_unparseable_classification_defaults_to_single :
    analyze_query_type Option.none =
      Json.obj [("query_type", Json.str "single"), ("steps", Json.arr [])] := rfl

/-! ## Claim C9 -/

set_option maxRecDepth 40000 in
/-- C9: two successive `generate_sql` calls that both omit `error_history`
share the one mutable default list.  Concretely: a first call whose three
responses are malformed leaves the default list holding its three failure
descriptions; a second call that omits the argument then starts from that
list (its error history is the first call's final history), and its first
prompt embeds the first call's failure description. -/
theorem c9_shared_default_error_history :
    (generate_sql_default_arg (fun _ : Nat => (Option.none : Option Json))
        "first request" "SCHEMA TEXT" []).2 =
      [attempt_error 1 msgInvalidJson, attempt_error 2 msgInvalidJson,
        attempt_error 3 msgInvalidJson]
    ∧ ((generate_sql_default_arg
          (fun _ : Nat => Option.some (Json.obj
            [("query", Json.str "SELECT 1"), ("summary", Json.str "ok")]))
          "second request" "SCHEMA TEXT"
          (generate_sql_default_arg (fun _ : Nat => (Option.none : Option Json))
            "first request" "SCHEMA TEXT" []).2).1).prompts =
        [build_prompt "second request" "SCHEMA TEXT"
          [attempt_error 1 msgInvalidJson, attempt_error 2 msgInvalidJson,
            attempt_error 3 msgInvalidJson] 1]
    ∧ hasSub (build_prompt "second request" "SCHEMA TEXT"
          [attempt_error 1 msgInvalidJson, attempt_error 2 msgInvalidJson,
            attempt_error 3 msgInvalidJson] 1)
        (attempt_error 1 msgInvalidJson) = true := by
  refine ⟨rfl, rfl, ?_⟩
  decide

/-! ## Claim C10 -/

/-- C10: a `generate_sql` call whose starting attempt number exceeds 3
never runs the loop body: no model invocation happens (no prompt is
sent), nothing is appended to the error history, and the call fails at
once with the exhaustion error whose last-error component is `None`. -/
theorem c10_start_beyond_bound_skips_loop (respond : Nat → Option Json)
    (prompt schema : String) (hist : List String) (attempt : Nat) (h : 3 < attempt) :
    generate_sql respond prompt schema hist attempt =
      GenOutcome.exhausted "Failed to generate valid SQL after 3 attempts. Last error: None"
        hist [] := by
  have hz : 4 - attempt = 0 := by omega
  simp [generate_sql, hz, generate_sql_loop, exhausted_message]

/-- C10 witness: starting at attempt 4 the loop is skipped and the
pre-existing history is untouched. -/
theorem c10_witness :
    generate_sql (fun _ : Nat => (Option.none : Option Json)) "p" "schema"
      ["earlier failure"] 4 =
      GenOutcome.exhausted "Failed to generate valid SQL after 3 attempts. Last error: None"
        ["earlier failure"] [] :=
  c10_start_beyond_bound_skips_loop _ "p" "schema" ["earlier failure"] 4 (by decide)

end BobDB
